import Mathlib

/-!
# Traffic signal controller (`traffic-signal.c`)

A shallow embedding of the two-signal GPIO traffic light program.  Every C
function becomes a Lean function returning the list of effects (system calls,
waits, console output) it performs, in order.  The build-time `DEBUG` switch is
the Boolean parameter `debug`.  The GPIO control filesystem is an explicit
state on which the effects are interpreted.
-/

namespace TrafficSignal

/-! ## Constants of the program -/

/-- Root of the GPIO control filesystem (`#define GPIO_PATH`). -/
def GPIO_PATH : String := "/sys/class/gpio/"

/-- Red lamp of the first signal (`#define RED_1`). -/
def RED_1 : Int := 49
/-- Yellow lamp of the first signal (`#define YELLOW_1`). -/
def YELLOW_1 : Int := 14
/-- Green lamp of the first signal (`#define GREEN_1`). -/
def GREEN_1 : Int := 15
/-- Red lamp of the second signal (`#define RED_2`). -/
def RED_2 : Int := 48
/-- Yellow lamp of the second signal (`#define YELLOW_2`). -/
def YELLOW_2 : Int := 31
/-- Green lamp of the second signal (`#define GREEN_2`). -/
def GREEN_2 : Int := 30

/-- Direction token (`#define GPIO_OUT`). -/
def GPIO_OUT : String := "out"
/-- Value token for a lit lamp (`#define GPIO_HIGH`). -/
def GPIO_HIGH : String := "1"
/-- Value token for a dark lamp (`#define GPIO_LOW`). -/
def GPIO_LOW : String := "0"

/-! ## Data model -/

/-- The C struct `Signal_t`: four `uint8_t` fields, kept as naturals; the
range of the type is the predicate `Signal_t.inRange`. -/
structure Signal_t where
  id : Nat
  red : Nat
  yellow : Nat
  green : Nat
  deriving DecidableEq, Repr

/-- All four fields fit in a `uint8_t`. -/
def Signal_t.inRange (s : Signal_t) : Prop :=
  s.id < 256 ∧ s.red < 256 ∧ s.yellow < 256 ∧ s.green < 256

instance (s : Signal_t) : Decidable s.inRange := by
  unfold Signal_t.inRange; infer_instance

/-- Conversion of an `int` to `uint8_t` (reduction modulo `2^8`). -/
def toU8 (i : Int) : Nat := (i % 256).toNat

/-- The range of the C type `int` (32-bit, signed). -/
def isInt32 (i : Int) : Prop := -2147483648 ≤ i ∧ i ≤ 2147483647

instance (i : Int) : Decidable (isInt32 i) := by
  unfold isInt32; infer_instance

/-- Flags given to `open`. -/
inductive OpenFlag
  | O_RDWR
  | O_WRONLY
  deriving DecidableEq, Repr

/-- One observable effect of the program.  `sysWrite` and `sysClose` act on the
descriptor returned by the preceding `sysOpen` (the program never holds more
than one). -/
inductive Event
  | sysOpen (path : String) (flags : OpenFlag)
  | sysWrite (bytes : String)
  | sysClose
  | sleep (seconds : Nat)
  | printf (text : String)
  deriving DecidableEq, Repr

/-- Contents of `struct utsname` that the debug banner prints. -/
structure utsname where
  sysname : String
  nodename : String
  machine : String

/-! ## C library helpers -/

/-- Output of the `%d` conversion. -/
def fmt_d (i : Int) : String := toString i

/-- Result left in a zero-initialised buffer of `size` bytes by
`snprintf(buffer, size, ...)` when the complete output would be `formatted`:
at most `size - 1` characters are stored, followed by the terminator. -/
def snprintf (size : Nat) (formatted : String) : String :=
  ⟨formatted.data.take (size - 1)⟩

/-- The `count` bytes that `write(fd, p, count)` takes from the C string `p`
(its characters followed by the terminator).  The program only calls it with
`count` at most the length of the string plus one. -/
def writeBytes (p : String) (count : Nat) : String :=
  ⟨(p.data ++ [Char.ofNat 0]).take count⟩

/-! ## GPIO driver -/

/-- The function `setDirection(gpio, pDirection)`. -/
def setDirection (debug : Bool) (gpio : Int) (pDirection : String) : List Event :=
  if debug then
    [Event.printf ("DEBUG: Set \"" ++ pDirection ++ "\" to gpio" ++ fmt_d gpio ++ " direction\n")]
  else
    let buffer := snprintf 50 (GPIO_PATH ++ "gpio" ++ fmt_d gpio ++ "/direction")
    [Event.sysOpen buffer OpenFlag.O_RDWR, Event.sysWrite (writeBytes pDirection 3), Event.sysClose]

/-- The function `setValue(gpio, pValue)`. -/
def setValue (debug : Bool) (gpio : Int) (pValue : String) : List Event :=
  if debug then
    [Event.printf ("DEBUG: Set \"" ++ pValue ++ "\" to gpio" ++ fmt_d gpio ++ " value\n")]
  else
    let buffer := snprintf 50 (GPIO_PATH ++ "gpio" ++ fmt_d gpio ++ "/value")
    [Event.sysOpen buffer OpenFlag.O_WRONLY, Event.sysWrite (writeBytes pValue 1), Event.sysClose]

/-! ## Signal controller -/

/-- The function `turnOffLights(pSignal)`. -/
def turnOffLights (debug : Bool) (pSignal : Signal_t) : List Event :=
  if debug then
    [Event.printf ("DEBUG: Traffic signal " ++ fmt_d pSignal.id ++ ": All lights OFF\n")]
  else
    setValue debug pSignal.red GPIO_LOW
      ++ setValue debug pSignal.yellow GPIO_LOW
      ++ setValue debug pSignal.green GPIO_LOW

/-- The function `turnOnLights(pSignal)`. -/
def turnOnLights (debug : Bool) (pSignal : Signal_t) : List Event :=
  if debug then
    [Event.printf ("DEBUG: Traffic signal " ++ fmt_d pSignal.id ++ ": All lights ON\n")]
  else
    setValue debug pSignal.red GPIO_HIGH
      ++ setValue debug pSignal.yellow GPIO_HIGH
      ++ setValue debug pSignal.green GPIO_HIGH

/-- The function `turnRed(pSignal)`. -/
def turnRed (debug : Bool) (pSignal : Signal_t) : List Event :=
  if debug then
    [Event.printf ("DEBUG: Traffic signal " ++ fmt_d pSignal.id ++ ":\n"),
     Event.printf "        RED:    on\n",
     Event.printf "        YELLOW: off\n",
     Event.printf "        GREEN:  off\n"]
  else
    setValue debug pSignal.yellow GPIO_LOW
      ++ setValue debug pSignal.green GPIO_LOW
      ++ setValue debug pSignal.red GPIO_HIGH

/-- The function `turnYellow(pSignal)`. -/
def turnYellow (debug : Bool) (pSignal : Signal_t) : List Event :=
  if debug then
    [Event.printf ("DEBUG: Traffic signal " ++ fmt_d pSignal.id ++ ":\n"),
     Event.printf "        RED:    off\n",
     Event.printf "        YELLOW: on\n",
     Event.printf "        GREEN:  off\n"]
  else
    setValue debug pSignal.red GPIO_LOW
      ++ setValue debug pSignal.green GPIO_LOW
      ++ setValue debug pSignal.yellow GPIO_HIGH

/-- The function `turnGreen(pSignal)`. -/
def turnGreen (debug : Bool) (pSignal : Signal_t) : List Event :=
  if debug then
    [Event.printf ("DEBUG: Traffic signal " ++ fmt_d pSignal.id ++ ":\n"),
     Event.printf "        RED:    off\n",
     Event.printf "        YELLOW: off\n",
     Event.printf "        GREEN:  on\n"]
  else
    setValue debug pSignal.red GPIO_LOW
      ++ setValue debug pSignal.yellow GPIO_LOW
      ++ setValue debug pSignal.green GPIO_HIGH

/-! ## Main sequencer -/

/-- The local `signalOne` of `main`. -/
def signalOne : Signal_t := ⟨toU8 1, toU8 RED_1, toU8 YELLOW_1, toU8 GREEN_1⟩

/-- The local `signalTwo` of `main`. -/
def signalTwo : Signal_t := ⟨toU8 2, toU8 RED_2, toU8 YELLOW_2, toU8 GREEN_2⟩

/-- The system identification banner printed by `main` under `DEBUG`. -/
def banner (sysInfo : utsname) : List Event :=
  [Event.printf ("System Name: " ++ sysInfo.sysname ++ "\n"),
   Event.printf ("Node Name: " ++ sysInfo.nodename ++ "\n"),
   Event.printf ("Machine: " ++ sysInfo.machine ++ "\n"),
   Event.printf "Student\x27s Name: Vy Phan\n",
   Event.printf "-----------------------------------------\n\n"]

/-- The part of `main` between the banner and the `while (1)` loop. -/
def startup (debug : Bool) : List Event :=
  setDirection debug RED_1 GPIO_OUT
    ++ setDirection debug YELLOW_1 GPIO_OUT
    ++ setDirection debug GREEN_1 GPIO_OUT
    ++ setDirection debug RED_2 GPIO_OUT
    ++ setDirection debug YELLOW_2 GPIO_OUT
    ++ setDirection debug GREEN_2 GPIO_OUT
    ++ turnOffLights debug signalOne
    ++ turnOffLights debug signalTwo

/-- One pass through the body of the `while (1)` loop of `main`. -/
def loopBody (debug : Bool) : List Event :=
  turnRed debug signalOne
    ++ turnGreen debug signalTwo
    ++ [Event.sleep 120]
    ++ turnYellow debug signalTwo
    ++ [Event.sleep 5]
    ++ turnRed debug signalTwo
    ++ turnGreen debug signalOne
    ++ [Event.sleep 120]
    ++ turnYellow debug signalOne
    ++ [Event.sleep 5]

/-- The effects of the first `iterations` passes of the `while (1)` loop. -/
def loopTrace (debug : Bool) : Nat → List Event
  | 0 => []
  | n + 1 => loopBody debug ++ loopTrace debug n

/-- The function `main`, observed up to the end of the given number of loop
iterations (the loop itself never ends). -/
def main (debug : Bool) (sysInfo : utsname) (iterations : Nat) : List Event :=
  (if debug then banner sysInfo else [])
    ++ startup debug
    ++ loopTrace debug iterations

/-! ## The GPIO filesystem -/

/-- State of the environment, the GPIO control filesystem of the operating
system seen as a map from path to contents: `files` gives the contents of every
resource and `fd` the resource the open descriptor refers to (if any).  Every
resource exists and can be opened, and a resource holds the token last written
to it; failing system calls are outside this model. -/
structure World where
  files : String → String
  fd : Option String

/-- Effect of one event on the environment. -/
def step (w : World) : Event → World
  | Event.sysOpen path _ => { w with fd := some path }
  | Event.sysWrite bytes =>
    match w.fd with
    | some path => { w with files := Function.update w.files path bytes }
    | none => w
  | Event.sysClose => { w with fd := none }
  | Event.sleep _ => w
  | Event.printf _ => w

/-- Effect of a sequence of events. -/
def run (w : World) (es : List Event) : World := es.foldl step w

/-- Reading a resource back. -/
def readFile (w : World) (path : String) : String := w.files path

/-- The value resource of pin `N`: `<gpio-root>/gpio<N>/value`. -/
def valuePath (pin : Int) : String := "/sys/class/gpio/gpio" ++ toString pin ++ "/value"

/-- The direction resource of pin `N`: `<gpio-root>/gpio<N>/direction`. -/
def directionPath (pin : Int) : String := "/sys/class/gpio/gpio" ++ toString pin ++ "/direction"

/-- Pin `pin` is driven high. -/
def isHigh (w : World) (pin : Nat) : Prop := readFile w (valuePath pin) = "1"

/-- Pin `pin` is driven low. -/
def isLow (w : World) (pin : Nat) : Prop := readFile w (valuePath pin) = "0"

instance (w : World) (pin : Nat) : Decidable (isHigh w pin) := by
  unfold isHigh; infer_instance

instance (w : World) (pin : Nat) : Decidable (isLow w pin) := by
  unfold isLow; infer_instance

/-- Exactly the red lamp of the signal is lit. -/
def showsRed (w : World) (s : Signal_t) : Prop :=
  isHigh w s.red ∧ isLow w s.yellow ∧ isLow w s.green

/-- Exactly the yellow lamp of the signal is lit. -/
def showsYellow (w : World) (s : Signal_t) : Prop :=
  isLow w s.red ∧ isHigh w s.yellow ∧ isLow w s.green

/-- Exactly the green lamp of the signal is lit. -/
def showsGreen (w : World) (s : Signal_t) : Prop :=
  isLow w s.red ∧ isLow w s.yellow ∧ isHigh w s.green

instance (w : World) (s : Signal_t) : Decidable (showsRed w s) := by
  unfold showsRed; infer_instance

instance (w : World) (s : Signal_t) : Decidable (showsYellow w s) := by
  unfold showsYellow; infer_instance

instance (w : World) (s : Signal_t) : Decidable (showsGreen w s) := by
  unfold showsGreen; infer_instance

/-- The states held at the waits: for each `sleep` in the trace, the
environment at that moment and the duration of the wait. -/
def waitStates (w : World) : List Event → List (World × Nat)
  | [] => []
  | Event.sleep d :: es => (w, d) :: waitStates w es
  | e :: es => waitStates (step w e) es

/-! ## Projection on the six lamps

The six value resources of the two configured signals, together with the open
descriptor, evolve independently of every other resource.  The main loop is
analysed on this projection. -/

/-- Contents of the six value resources used by `main`, and the descriptor. -/
structure Lamps where
  r1 : String
  y1 : String
  g1 : String
  r2 : String
  y2 : String
  g2 : String
  fd : Option String
  deriving DecidableEq, Repr

/-- Projection of the environment on the six lamps. -/
def view (w : World) : Lamps :=
  { r1 := w.files (valuePath signalOne.red)
    y1 := w.files (valuePath signalOne.yellow)
    g1 := w.files (valuePath signalOne.green)
    r2 := w.files (valuePath signalTwo.red)
    y2 := w.files (valuePath signalTwo.yellow)
    g2 := w.files (valuePath signalTwo.green)
    fd := w.fd }

/-- Effect of one event on the projection. -/
def lampStep (a : Lamps) : Event → Lamps
  | Event.sysOpen path _ => { a with fd := some path }
  | Event.sysWrite bytes =>
    match a.fd with
    | some path =>
      { r1 := if valuePath signalOne.red = path then bytes else a.r1
        y1 := if valuePath signalOne.yellow = path then bytes else a.y1
        g1 := if valuePath signalOne.green = path then bytes else a.g1
        r2 := if valuePath signalTwo.red = path then bytes else a.r2
        y2 := if valuePath signalTwo.yellow = path then bytes else a.y2
        g2 := if valuePath signalTwo.green = path then bytes else a.g2
        fd := a.fd }
    | none => a
  | Event.sysClose => { a with fd := none }
  | Event.sleep _ => a
  | Event.printf _ => a

/-- Effect of a sequence of events on the projection. -/
def lampRun (a : Lamps) (es : List Event) : Lamps := es.foldl lampStep a

/-- The projection of `waitStates`. -/
def lampWaits (a : Lamps) : List Event → List (Lamps × Nat)
  | [] => []
  | Event.sleep d :: es => (a, d) :: lampWaits a es
  | e :: es => lampWaits (lampStep a e) es

/-- All six lamps dark, no descriptor open: the state left by the startup. -/
def allOff : Lamps := ⟨"0", "0", "0", "0", "0", "0", none⟩

/-- First signal yellow, second signal red: the state at the end of an iteration. -/
def endOfCycle : Lamps := ⟨"0", "1", "0", "1", "0", "0", none⟩

/-- Both green lamps lit. -/
def bothGreen (a : Lamps) : Prop := a.g1 = "1" ∧ a.g2 = "1"

instance (a : Lamps) : Decidable (bothGreen a) := by
  unfold bothGreen; infer_instance

/-- On the lamps: each signal has at most one lamp lit, and a lit green or
yellow lamp of one signal comes with exactly the red lamp of the other. -/
def conflictFree (a : Lamps) : Prop :=
  (¬ (a.r1 = "1" ∧ a.y1 = "1") ∧ ¬ (a.r1 = "1" ∧ a.g1 = "1") ∧ ¬ (a.y1 = "1" ∧ a.g1 = "1"))
  ∧ (¬ (a.r2 = "1" ∧ a.y2 = "1") ∧ ¬ (a.r2 = "1" ∧ a.g2 = "1") ∧ ¬ (a.y2 = "1" ∧ a.g2 = "1"))
  ∧ ((a.g1 = "1" ∨ a.y1 = "1") → a.r2 = "1" ∧ a.y2 = "0" ∧ a.g2 = "0")
  ∧ ((a.g2 = "1" ∨ a.y2 = "1") → a.r1 = "1" ∧ a.y1 = "0" ∧ a.g1 = "0")

instance (a : Lamps) : Decidable (conflictFree a) := by
  unfold conflictFree; infer_instance

/-- The four entries that one loop body adds to the list of waits. -/
def cycleWaits : List (Lamps × Nat) :=
  [(⟨"1", "0", "0", "0", "0", "1", none⟩, 120),
   (⟨"1", "0", "0", "0", "1", "0", none⟩, 5),
   (⟨"0", "0", "1", "1", "0", "0", none⟩, 120),
   (⟨"0", "1", "0", "1", "0", "0", none⟩, 5)]

/-- The waits of `n` loop iterations, on the lamps. -/
def cycleWaitsN : Nat → List (Lamps × Nat)
  | 0 => []
  | n + 1 => cycleWaits ++ cycleWaitsN n

/-- Value of a string of decimal digits read from the left, continuing from
`acc`. -/
def digitsValue (acc : Nat) (cs : List Char) : Nat :=
  cs.foldl (fun a c => a * 10 + (c.toNat - 48)) acc

/-- The byte strings passed to `write`, in order. -/
def writesOf (es : List Event) : List String :=
  es.filterMap (fun e => match e with
    | Event.sysWrite b => some b
    | _ => none)

/-- Whether the sequence of written tokens contains three consecutive `"0"`,
given that `c` of them immediately precede it. -/
def threeLows : Nat → List String → Bool
  | _, [] => false
  | c, t :: ts =>
    if t = "0" then (if 2 ≤ c then true else threeLows (c + 1) ts) else threeLows 0 ts

/-- The event is one of the system calls on a GPIO resource. -/
def Event.isSyscall : Event → Bool
  | Event.sysOpen _ _ => true
  | Event.sysWrite _ => true
  | Event.sysClose => true
  | Event.sleep _ => false
  | Event.printf _ => false

/-- The event is a line of console output. -/
def Event.isPrintf : Event → Bool
  | Event.printf _ => true
  | _ => false

/-- At most one of the three lamps of the signal is lit. -/
def atMostOneLit (w : World) (s : Signal_t) : Prop :=
  ¬ (isHigh w s.red ∧ isHigh w s.yellow) ∧ ¬ (isHigh w s.red ∧ isHigh w s.green)
    ∧ ¬ (isHigh w s.yellow ∧ isHigh w s.green)

/-- If signal `s` shows green or yellow then signal `other` shows exactly red. -/
def protectedBy (w : World) (s other : Signal_t) : Prop :=
  (isHigh w s.green ∨ isHigh w s.yellow) → showsRed w other

/-- A world in which every resource is empty and no descriptor is open. -/
def emptyWorld : World := { files := fun _ => "", fd := none }

/-- A sample `struct utsname`. -/
def sampleInfo : utsname := { sysname := "Linux", nodename := "beaglebone", machine := "armv7l" }

/-! ## Formatting lemmas -/

theorem fmt_d_ofNat (n : Nat) : fmt_d (n : Int) = toString n := rfl

theorem fmt_d_length (i : Int) (h : isInt32 i) : (fmt_d i).length ≤ 11 := by
  obtain ⟨hlo, hhi⟩ := h
  cases i with
  | ofNat m =>
    have hm : m < 10 ^ 10 := by
      have : (m : Int) ≤ 2147483647 := hhi
      omega
    have := Nat.repr_length m 10 (by decide) hm
    show (Nat.repr m).length ≤ 11
    omega
  | negSucc m =>
    have hm : m + 1 < 10 ^ 10 := by
      have : Int.negSucc m = -((m : Int) + 1) := rfl
      omega
    have := Nat.repr_length (m + 1) 10 (by decide) hm
    show ("-" ++ Nat.repr (m + 1)).length ≤ 11
    rw [String.length_append]
    have : "-".length = 1 := rfl
    omega

theorem snprintf_complete (size : Nat) (s : String) (h : s.length < size) :
    snprintf size s = s := by
  unfold snprintf
  have : s.data.take (size - 1) = s.data := List.take_of_length_le (by
    have : s.data.length = s.length := rfl
    omega)
  rw [this]

theorem valuePath_length (i : Int) (h : isInt32 i) : (valuePath i).length ≤ 37 := by
  have := fmt_d_length i h
  unfold fmt_d at this
  unfold valuePath
  simp only [String.length_append]
  have h1 : "/sys/class/gpio/gpio".length = 20 := rfl
  have h2 : "/value".length = 6 := rfl
  omega

theorem directionPath_length (i : Int) (h : isInt32 i) : (directionPath i).length ≤ 41 := by
  have := fmt_d_length i h
  unfold fmt_d at this
  unfold directionPath
  simp only [String.length_append]
  have h1 : "/sys/class/gpio/gpio".length = 20 := rfl
  have h2 : "/direction".length = 10 := rfl
  omega

theorem value_format_eq (i : Int) :
    GPIO_PATH ++ "gpio" ++ fmt_d i ++ "/value" = valuePath i := by
  unfold valuePath fmt_d GPIO_PATH
  have : "/sys/class/gpio/" ++ "gpio" = "/sys/class/gpio/gpio" := rfl
  rw [this]

theorem direction_format_eq (i : Int) :
    GPIO_PATH ++ "gpio" ++ fmt_d i ++ "/direction" = directionPath i := by
  unfold directionPath fmt_d GPIO_PATH
  have : "/sys/class/gpio/" ++ "gpio" = "/sys/class/gpio/gpio" := rfl
  rw [this]

theorem setValue_events (g : Int) (h : isInt32 g) (v : String) :
    setValue false g v
      = [Event.sysOpen (valuePath g) OpenFlag.O_WRONLY, Event.sysWrite (writeBytes v 1),
         Event.sysClose] := by
  have hl := valuePath_length g h
  simp only [setValue, value_format_eq, Bool.false_eq_true, if_false]
  rw [snprintf_complete 50 _ (by omega)]

theorem setDirection_events (g : Int) (h : isInt32 g) (d : String) :
    setDirection false g d
      = [Event.sysOpen (directionPath g) OpenFlag.O_RDWR, Event.sysWrite (writeBytes d 3),
         Event.sysClose] := by
  have hl := directionPath_length g h
  simp only [setDirection, direction_format_eq, Bool.false_eq_true, if_false]
  rw [snprintf_complete 50 _ (by omega)]

theorem run_append (w : World) (a b : List Event) : run w (a ++ b) = run (run w a) b := by
  simp [run, List.foldl_append]

theorem run_setValue (w : World) (g : Int) (h : isInt32 g) (v : String) :
    run w (setValue false g v)
      = { files := Function.update w.files (valuePath g) (writeBytes v 1), fd := none } := by
  rw [setValue_events g h]
  simp [run, step]

theorem view_step (w : World) (e : Event) : view (step w e) = lampStep (view w) e := by
  cases e with
  | sysOpen p f => rfl
  | sysWrite b =>
    cases hfd : w.fd with
    | none => simp [step, lampStep, view, hfd]
    | some p => simp [step, lampStep, view, hfd, Function.update_apply]
  | sysClose => rfl
  | sleep d => rfl
  | printf t => rfl

theorem view_run (es : List Event) : ∀ w : World, view (run w es) = lampRun (view w) es := by
  induction es with
  | nil => intro w; rfl
  | cons e es ih =>
    intro w
    show view (run (step w e) es) = lampRun (lampStep (view w) e) es
    rw [ih, view_step]

theorem lampRun_startup (a : Lamps) : lampRun a (startup false) = allOff := by
  cases a
  rfl

theorem lampRun_body_allOff : lampRun allOff (loopBody false) = endOfCycle := by
  decide

theorem lampRun_body_endOfCycle : lampRun endOfCycle (loopBody false) = endOfCycle := by
  decide

theorem loopBody_length : (loopBody false).length = 58 := by
  decide

theorem lampRun_append (a : Lamps) (xs ys : List Event) :
    lampRun a (xs ++ ys) = lampRun (lampRun a xs) ys := by
  simp [lampRun, List.foldl_append]

/-- A property of the lamps that holds after every prefix of one loop body, from
both possible states at the head of the loop, holds after every prefix of any
number of iterations. -/
theorem lampRun_along_loop (good : Lamps → Prop)
    (h0 : ∀ k, k ≤ 58 → good (lampRun allOff ((loopBody false).take k)))
    (h1 : ∀ k, k ≤ 58 → good (lampRun endOfCycle ((loopBody false).take k))) :
    ∀ n k, good (lampRun allOff ((loopTrace false n).take k))
      ∧ good (lampRun endOfCycle ((loopTrace false n).take k)) := by
  intro n
  induction n with
  | zero =>
    intro k
    have a0 := h0 0 (by omega)
    have a1 := h1 0 (by omega)
    simpa [loopTrace, lampRun] using And.intro a0 a1
  | succ n ih =>
    intro k
    show good (lampRun allOff ((loopBody false ++ loopTrace false n).take k))
      ∧ good (lampRun endOfCycle ((loopBody false ++ loopTrace false n).take k))
    rw [List.take_append_eq_append_take, loopBody_length]
    by_cases hk : k ≤ 58
    · have hz : k - 58 = 0 := by omega
      rw [hz]
      simpa using And.intro (h0 k hk) (h1 k hk)
    · have hfull : (loopBody false).take k = loopBody false :=
        List.take_of_length_le (by rw [loopBody_length]; omega)
      rw [hfull, lampRun_append, lampRun_append, lampRun_body_allOff, lampRun_body_endOfCycle]
      exact ⟨(ih (k - 58)).2, (ih (k - 58)).2⟩

/-- The lamps after the startup and any prefix of the main loop satisfy every
property that holds along the loop body. -/
theorem view_along_loop (good : Lamps → Prop)
    (h0 : ∀ k, k ≤ 58 → good (lampRun allOff ((loopBody false).take k)))
    (h1 : ∀ k, k ≤ 58 → good (lampRun endOfCycle ((loopBody false).take k)))
    (w0 : World) (n k : Nat) :
    good (view (run (run w0 (startup false)) ((loopTrace false n).take k))) := by
  rw [view_run, view_run, lampRun_startup]
  exact (lampRun_along_loop good h0 h1 n k).1

theorem signalOne_eq : signalOne = ⟨1, 49, 14, 15⟩ := by decide

theorem signalTwo_eq : signalTwo = ⟨2, 48, 31, 30⟩ := by decide

theorem body_never_both_green_allOff :
    ∀ k, k ≤ 58 → ¬ bothGreen (lampRun allOff ((loopBody false).take k)) := by
  decide

theorem body_never_both_green_endOfCycle :
    ∀ k, k ≤ 58 → ¬ bothGreen (lampRun endOfCycle ((loopBody false).take k)) := by
  decide

theorem body_conflictFree_allOff :
    ∀ k, k ≤ 58 → conflictFree (lampRun allOff ((loopBody false).take k)) := by
  decide

theorem body_conflictFree_endOfCycle :
    ∀ k, k ≤ 58 → conflictFree (lampRun endOfCycle ((loopBody false).take k)) := by
  decide

theorem waitStates_view (es : List Event) : ∀ w : World,
    (waitStates w es).map (fun p => (view p.1, p.2)) = lampWaits (view w) es := by
  induction es with
  | nil => intro w; rfl
  | cons e es ih =>
    intro w
    cases e with
    | sleep d => simp [waitStates, lampWaits, ih]
    | sysOpen q f => simp [waitStates, lampWaits, ih, view_step]
    | sysWrite b => simp [waitStates, lampWaits, ih, view_step]
    | sysClose => simp [waitStates, lampWaits, ih, view_step]
    | printf t => simp [waitStates, lampWaits, ih, view_step]

theorem lampWaits_append (xs ys : List Event) : ∀ a : Lamps,
    lampWaits a (xs ++ ys) = lampWaits a xs ++ lampWaits (lampRun a xs) ys := by
  induction xs with
  | nil => intro a; rfl
  | cons e xs ih =>
    intro a
    cases e with
    | sleep d => simp [lampWaits, ih, lampRun, lampStep]
    | sysOpen q f => simp [lampWaits, ih, lampRun]
    | sysWrite b => simp [lampWaits, ih, lampRun]
    | sysClose => simp [lampWaits, ih, lampRun]
    | printf t => simp [lampWaits, ih, lampRun]

theorem lampWaits_startup (a : Lamps) : lampWaits a (startup false) = [] := by
  cases a
  rfl

theorem lampWaits_body_allOff : lampWaits allOff (loopBody false) = cycleWaits := by
  decide

theorem lampWaits_body_endOfCycle : lampWaits endOfCycle (loopBody false) = cycleWaits := by
  decide

theorem lampWaits_loop (n : Nat) :
    lampWaits allOff (loopTrace false n) = cycleWaitsN n
      ∧ lampWaits endOfCycle (loopTrace false n) = cycleWaitsN n := by
  induction n with
  | zero => exact ⟨rfl, rfl⟩
  | succ n ih =>
    show lampWaits allOff (loopBody false ++ loopTrace false n) = cycleWaits ++ cycleWaitsN n
      ∧ lampWaits endOfCycle (loopBody false ++ loopTrace false n) = cycleWaits ++ cycleWaitsN n
    rw [lampWaits_append, lampWaits_append, lampRun_body_allOff, lampRun_body_endOfCycle,
      lampWaits_body_allOff, lampWaits_body_endOfCycle, ih.2]
    exact ⟨rfl, rfl⟩

theorem cycleWaitsN_length (n : Nat) : (cycleWaitsN n).length = 4 * n := by
  induction n with
  | zero => rfl
  | succ n ih =>
    show (cycleWaits ++ cycleWaitsN n).length = 4 * (n + 1)
    rw [List.length_append, ih]
    show 4 + 4 * n = 4 * (n + 1)
    omega

theorem cycleWaitsN_get (n : Nat) : ∀ k, k < 4 * n →
    (cycleWaitsN n)[k]? = cycleWaits[k % 4]? := by
  induction n with
  | zero => intro k hk; omega
  | succ n ih =>
    intro k hk
    show (cycleWaits ++ cycleWaitsN n)[k]? = cycleWaits[k % 4]?
    by_cases h4 : k < 4
    · rw [List.getElem?_append_left (by simpa [cycleWaits] using h4), Nat.mod_eq_of_lt h4]
    · have hlen : cycleWaits.length = 4 := rfl
      rw [List.getElem?_append_right (by omega), hlen, ih (k - 4) (by omega)]
      have : (k - 4) % 4 = k % 4 := by omega
      rw [this]

/-- The waits of the whole non-debug program, projected on the lamps. -/
theorem main_waits_view (w0 : World) (sysInfo : utsname) (n : Nat) :
    (waitStates w0 (main false sysInfo n)).map (fun p => (view p.1, p.2)) = cycleWaitsN n := by
  rw [waitStates_view]
  show lampWaits (view w0) (([] ++ startup false) ++ loopTrace false n) = cycleWaitsN n
  rw [List.nil_append, lampWaits_append, lampWaits_startup, lampRun_startup, (lampWaits_loop n).1]
  rfl

/-! ## Distinct pins have distinct value resources -/

theorem digitChar_value (k : Nat) (h : k < 10) : (Nat.digitChar k).toNat - 48 = k := by
  interval_cases k <;> rfl

theorem digitsValue_toDigitsCore (fuel : Nat) : ∀ (n : Nat) (ds : List Char), n < fuel →
    digitsValue 0 (Nat.toDigitsCore 10 fuel n ds) = digitsValue n ds := by
  induction fuel with
  | zero => intro n ds h; omega
  | succ f ih =>
    intro n ds h
    simp only [Nat.toDigitsCore]
    split
    · rename_i h0
      have hn : n < 10 := by omega
      simp only [digitsValue, List.foldl_cons, Nat.zero_mul, Nat.zero_add]
      rw [digitChar_value _ (Nat.mod_lt _ (by decide)), Nat.mod_eq_of_lt hn]
    · rename_i h0
      rw [ih (n / 10) _ (by omega)]
      simp only [digitsValue, List.foldl_cons]
      rw [digitChar_value _ (Nat.mod_lt _ (by decide))]
      congr 1
      omega

theorem repr_injective (a b : Nat) (h : Nat.repr a = Nat.repr b) : a = b := by
  have h2 : Nat.toDigits 10 a = Nat.toDigits 10 b := by
    have := congrArg String.data h
    simpa [Nat.repr] using this
  have ha := digitsValue_toDigitsCore (a + 1) a [] (by omega)
  have hb := digitsValue_toDigitsCore (b + 1) b [] (by omega)
  unfold Nat.toDigits at h2
  rw [h2] at ha
  rw [ha] at hb
  simpa [digitsValue] using hb

theorem valuePath_injective (a b : Nat) (h : valuePath a = valuePath b) : a = b := by
  have h1 : "/sys/class/gpio/gpio" ++ Nat.repr a ++ "/value"
      = "/sys/class/gpio/gpio" ++ Nat.repr b ++ "/value" := h
  have h2 := congrArg String.data h1
  simp only [String.data_append] at h2
  have h3 := List.append_cancel_left (List.append_cancel_right h2)
  exact repr_injective a b (String.ext h3)

theorem valuePath_ne {a b : Nat} (h : a ≠ b) : valuePath a ≠ valuePath b :=
  fun e => h (valuePath_injective a b e)

theorem isInt32_of_lt_256 (n : Nat) (h : n < 256) : isInt32 (n : Int) := by
  unfold isInt32
  constructor <;> omega

/-! ## The phase operations as updates of the filesystem -/

theorem run_three_setValue (w : World) (a b c : Int) (ha : isInt32 a) (hb : isInt32 b)
    (hc : isInt32 c) (x y z : String) :
    run w (setValue false a x ++ setValue false b y ++ setValue false c z)
      = { files := Function.update (Function.update (Function.update w.files
            (valuePath a) (writeBytes x 1)) (valuePath b) (writeBytes y 1))
            (valuePath c) (writeBytes z 1),
          fd := none } := by
  rw [run_append, run_append, run_setValue _ a ha, run_setValue _ b hb, run_setValue _ c hc]

theorem writeBytes_low : writeBytes GPIO_LOW 1 = "0" := by decide

theorem writeBytes_high : writeBytes GPIO_HIGH 1 = "1" := by decide

theorem run_turnOffLights (w : World) (s : Signal_t) (hs : s.inRange) :
    run w (turnOffLights false s)
      = { files := Function.update (Function.update (Function.update w.files
            (valuePath s.red) "0") (valuePath s.yellow) "0") (valuePath s.green) "0",
          fd := none } := by
  obtain ⟨_, hr, hy, hg⟩ := hs
  simp only [turnOffLights, Bool.false_eq_true, if_false]
  rw [run_three_setValue w _ _ _ (isInt32_of_lt_256 _ hr) (isInt32_of_lt_256 _ hy)
    (isInt32_of_lt_256 _ hg), writeBytes_low]

theorem run_turnOnLights (w : World) (s : Signal_t) (hs : s.inRange) :
    run w (turnOnLights false s)
      = { files := Function.update (Function.update (Function.update w.files
            (valuePath s.red) "1") (valuePath s.yellow) "1") (valuePath s.green) "1",
          fd := none } := by
  obtain ⟨_, hr, hy, hg⟩ := hs
  simp only [turnOnLights, Bool.false_eq_true, if_false]
  rw [run_three_setValue w _ _ _ (isInt32_of_lt_256 _ hr) (isInt32_of_lt_256 _ hy)
    (isInt32_of_lt_256 _ hg), writeBytes_high]

theorem run_turnRed (w : World) (s : Signal_t) (hs : s.inRange) :
    run w (turnRed false s)
      = { files := Function.update (Function.update (Function.update w.files
            (valuePath s.yellow) "0") (valuePath s.green) "0") (valuePath s.red) "1",
          fd := none } := by
  obtain ⟨_, hr, hy, hg⟩ := hs
  simp only [turnRed, Bool.false_eq_true, if_false]
  rw [run_three_setValue w _ _ _ (isInt32_of_lt_256 _ hy) (isInt32_of_lt_256 _ hg)
    (isInt32_of_lt_256 _ hr), writeBytes_low, writeBytes_high]

theorem run_turnYellow (w : World) (s : Signal_t) (hs : s.inRange) :
    run w (turnYellow false s)
      = { files := Function.update (Function.update (Function.update w.files
            (valuePath s.red) "0") (valuePath s.green) "0") (valuePath s.yellow) "1",
          fd := none } := by
  obtain ⟨_, hr, hy, hg⟩ := hs
  simp only [turnYellow, Bool.false_eq_true, if_false]
  rw [run_three_setValue w _ _ _ (isInt32_of_lt_256 _ hr) (isInt32_of_lt_256 _ hg)
    (isInt32_of_lt_256 _ hy), writeBytes_low, writeBytes_high]

theorem run_turnGreen (w : World) (s : Signal_t) (hs : s.inRange) :
    run w (turnGreen false s)
      = { files := Function.update (Function.update (Function.update w.files
            (valuePath s.red) "0") (valuePath s.yellow) "0") (valuePath s.green) "1",
          fd := none } := by
  obtain ⟨_, hr, hy, hg⟩ := hs
  simp only [turnGreen, Bool.false_eq_true, if_false]
  rw [run_three_setValue w _ _ _ (isInt32_of_lt_256 _ hr) (isInt32_of_lt_256 _ hy)
    (isInt32_of_lt_256 _ hg), writeBytes_low, writeBytes_high]

/-- Three successive overwrites, repeated, give the same filesystem. -/
theorem update_three_idem (f : String → String) (p q r v1 v2 v3 : String) :
    Function.update (Function.update (Function.update
      (Function.update (Function.update (Function.update f p v1) q v2) r v3) p v1) q v2) r v3
      = Function.update (Function.update (Function.update f p v1) q v2) r v3 := by
  funext x
  simp only [Function.update_apply]
  split_ifs <;> rfl

/-- After three overwrites of pairwise distinct resources each holds its own value. -/
theorem update_three_read (f : String → String) (p q r v1 v2 v3 : String)
    (hpq : p ≠ q) (hpr : p ≠ r) (hqr : q ≠ r) :
    Function.update (Function.update (Function.update f p v1) q v2) r v3 p = v1
    ∧ Function.update (Function.update (Function.update f p v1) q v2) r v3 q = v2
    ∧ Function.update (Function.update (Function.update f p v1) q v2) r v3 r = v3 := by
  simp [Function.update_apply, hpq, hpr, hqr]

/-! ## The loop never repeats the startup -/

theorem writesOf_append (xs ys : List Event) :
    writesOf (xs ++ ys) = writesOf xs ++ writesOf ys := by
  simp [writesOf, List.filterMap_append]

theorem threeLows_mono (ts : List String) : ∀ c d : Nat, c ≤ d →
    threeLows c ts = true → threeLows d ts = true := by
  induction ts with
  | nil => intro c d _ h; simp [threeLows] at h
  | cons t ts ih =>
    intro c d hcd h
    simp only [threeLows] at h ⊢
    by_cases ht : t = "0"
    · simp only [ht, if_true] at h ⊢
      by_cases hd : 2 ≤ d
      · simp [hd]
      · have hc : ¬ 2 ≤ c := by omega
        simp only [hc, hd, if_false] at h ⊢
        exact ih (c + 1) (d + 1) (by omega) h
    · simp only [ht, if_false] at h ⊢
      exact h

theorem threeLows_found (pre post : List String) : ∀ c : Nat,
    threeLows c (pre ++ ["0", "0", "0"] ++ post) = true := by
  induction pre with
  | nil =>
    intro c
    apply threeLows_mono _ 0 c (by omega)
    simp [threeLows]
  | cons t pre ih =>
    intro c
    simp only [List.cons_append, threeLows]
    split_ifs
    · rfl
    · exact ih (c + 1)
    · exact ih 0

theorem writesOf_turnOffLights (s : Signal_t) :
    writesOf (turnOffLights false s) = ["0", "0", "0"] := by
  simp [turnOffLights, setValue, writesOf, writeBytes_low]

theorem writesOf_loopBody : writesOf (loopBody false)
    = ["0", "0", "1", "0", "0", "1", "0", "0", "1", "0", "0", "1", "0", "0", "1",
       "0", "0", "1"] := by
  decide

theorem threeLows_loopTrace (n : Nat) : threeLows 0 (writesOf (loopTrace false n)) = false := by
  induction n with
  | zero => rfl
  | succ n ih =>
    show threeLows 0 (writesOf (loopBody false ++ loopTrace false n)) = false
    rw [writesOf_append, writesOf_loopBody]
    simpa [threeLows] using ih

theorem no_allOff_in_loop (s : Signal_t) (n : Nat) :
    ¬ (turnOffLights false s) <:+: (loopTrace false n) := by
  rintro ⟨pre, post, h⟩
  have h1 := congrArg writesOf h
  rw [writesOf_append, writesOf_append, writesOf_turnOffLights] at h1
  have h2 := threeLows_found (writesOf pre) (writesOf post) 0
  rw [h1, threeLows_loopTrace] at h2
  exact Bool.noConfusion h2

theorem mem_loopTrace (debug : Bool) (n : Nat) (e : Event) (h : e ∈ loopTrace debug n) :
    e ∈ loopBody debug := by
  induction n with
  | zero => simp [loopTrace] at h
  | succ n ih =>
    have h1 : e ∈ loopBody debug ++ loopTrace debug n := h
    rcases List.mem_append.mp h1 with h2 | h2
    · exact h2
    · exact ih h2

theorem loopBody_no_direction : ∀ e ∈ loopBody false,
    (∀ pin ∈ [RED_1, YELLOW_1, GREEN_1, RED_2, YELLOW_2, GREEN_2],
      e ≠ Event.sysOpen (directionPath pin) OpenFlag.O_RDWR
        ∧ e ≠ Event.sysOpen (directionPath pin) OpenFlag.O_WRONLY)
    ∧ e ≠ Event.sysWrite "out" := by
  decide

/-! ## Debug mode -/

theorem run_no_syscall (es : List Event) : ∀ w : World,
    (∀ e ∈ es, e.isSyscall = false) → run w es = w := by
  induction es with
  | nil => intro w _; rfl
  | cons e es ih =>
    intro w h
    have he := h e (List.mem_cons_self e es)
    have hstep : step w e = w := by
      cases e <;> first | rfl | simp [Event.isSyscall] at he
    show run (step w e) es = w
    rw [hstep]
    exact ih w (fun x hx => h x (List.mem_cons_of_mem e hx))

theorem startup_debug_no_syscall : ∀ e ∈ startup true, e.isSyscall = false := by
  decide

theorem loopBody_debug_no_syscall : ∀ e ∈ loopBody true, e.isSyscall = false := by
  decide

theorem main_debug_no_syscall (sysInfo : utsname) (n : Nat) :
    ∀ e ∈ main true sysInfo n, e.isSyscall = false := by
  intro e he
  simp only [main, if_true, List.mem_append] at he
  rcases he with (hb | hs) | hl
  · simp only [banner, List.mem_cons, List.mem_singleton, List.not_mem_nil, or_false] at hb
    rcases hb with h | h | h | h | h <;> (subst h; rfl)
  · exact startup_debug_no_syscall e hs
  · exact loopBody_debug_no_syscall e (mem_loopTrace true n e hl)

/-! ## The claims -/

theorem main_wait_at (w0 : World) (sysInfo : utsname) (n k : Nat) (hk : k < 4 * n) :
    ∃ w d L, (waitStates w0 (main false sysInfo n))[k]? = some (w, d)
      ∧ view w = L ∧ cycleWaits[k % 4]? = some (L, d) := by
  have hv := main_waits_view w0 sysInfo n
  have hg := congrArg (fun l => l[k]?) hv
  simp only [List.getElem?_map] at hg
  rw [cycleWaitsN_get n k hk] at hg
  have h4 : k % 4 < 4 := Nat.mod_lt _ (by decide)
  have hlen : cycleWaits.length = 4 := rfl
  have hsome : cycleWaits[k % 4]? = some (cycleWaits[k % 4]) :=
    List.getElem?_eq_getElem (by omega)
  rw [hsome] at hg
  obtain ⟨p, hp, hpe⟩ := Option.map_eq_some'.mp hg
  refine ⟨p.1, p.2, view p.1, hp, rfl, ?_⟩
  rw [hsome, ← hpe]

/-- C1: in the non-debug program, run from any initial environment, the waits
of the first `n` loop iterations are exactly `4 * n`; at wait number `k` the
joint state is (A red, B green) for 120 s when `k % 4 = 0`, (A red, B yellow)
for 5 s when `k % 4 = 1`, (A green, B red) for 120 s when `k % 4 = 2` and
(A yellow, B red) for 5 s when `k % 4 = 3`; so no other joint state is held at
a wait. -/
theorem main_wait_cycle (w0 : World) (sysInfo : utsname) (n k : Nat) (hk : k < 4 * n) :
    (waitStates w0 (main false sysInfo n)).length = 4 * n
    ∧ ∃ w d, (waitStates w0 (main false sysInfo n))[k]? = some (w, d)
      ∧ (k % 4 = 0 → showsRed w signalOne ∧ showsGreen w signalTwo ∧ d = 120)
      ∧ (k % 4 = 1 → showsRed w signalOne ∧ showsYellow w signalTwo ∧ d = 5)
      ∧ (k % 4 = 2 → showsGreen w signalOne ∧ showsRed w signalTwo ∧ d = 120)
      ∧ (k % 4 = 3 → showsYellow w signalOne ∧ showsRed w signalTwo ∧ d = 5) := by
  have hlen : (waitStates w0 (main false sysInfo n)).length = 4 * n := by
    have := congrArg List.length (main_waits_view w0 sysInfo n)
    rwa [List.length_map, cycleWaitsN_length] at this
  obtain ⟨w, d, L, hget, hview, hc⟩ := main_wait_at w0 sysInfo n k hk
  have h1 : readFile w (valuePath signalOne.red) = L.r1 := congrArg Lamps.r1 hview
  have h2 : readFile w (valuePath signalOne.yellow) = L.y1 := congrArg Lamps.y1 hview
  have h3 : readFile w (valuePath signalOne.green) = L.g1 := congrArg Lamps.g1 hview
  have h4 : readFile w (valuePath signalTwo.red) = L.r2 := congrArg Lamps.r2 hview
  have h5 : readFile w (valuePath signalTwo.yellow) = L.y2 := congrArg Lamps.y2 hview
  have h6 : readFile w (valuePath signalTwo.green) = L.g2 := congrArg Lamps.g2 hview
  refine ⟨hlen, w, d, hget, ?_, ?_, ?_, ?_⟩
  all_goals
    intro hmod
    rw [hmod] at hc
    simp only [cycleWaits, List.getElem?_cons_zero, List.getElem?_cons_succ, Option.some.injEq,
      Prod.mk.injEq] at hc
    obtain ⟨hL, hd⟩ := hc
    subst hL
    simp only [showsRed, showsYellow, showsGreen, isHigh, isLow]
    exact ⟨⟨h1, h2, h3⟩, ⟨h4, h5, h6⟩, hd.symm⟩

/-- Witness for C1: the first wait of the first iteration, from the empty world. -/
theorem main_wait_cycle_witness :
    0 < 4 * 1
    ∧ (waitStates emptyWorld (main false sampleInfo 1)).length = 4 * 1
    ∧ ∃ w d, (waitStates emptyWorld (main false sampleInfo 1))[0]? = some (w, d)
      ∧ (0 % 4 = 0 → showsRed w signalOne ∧ showsGreen w signalTwo ∧ d = 120)
      ∧ (0 % 4 = 1 → showsRed w signalOne ∧ showsYellow w signalTwo ∧ d = 5)
      ∧ (0 % 4 = 2 → showsGreen w signalOne ∧ showsRed w signalTwo ∧ d = 120)
      ∧ (0 % 4 = 3 → showsYellow w signalOne ∧ showsRed w signalTwo ∧ d = 5) :=
  ⟨by decide, main_wait_cycle emptyWorld sampleInfo 1 0 (by decide)⟩

/-- C2: in the non-debug program, after the startup and after every prefix of
the effects of any number of loop iterations (so after every individual write),
the green pin 15 of signal A and the green pin 30 of signal B are never both
high. -/
theorem never_both_green (w0 : World) (n k : Nat) :
    ¬ (isHigh (run (run w0 (startup false)) ((loopTrace false n).take k)) 15
        ∧ isHigh (run (run w0 (startup false)) ((loopTrace false n).take k)) 30) :=
  view_along_loop (fun a => ¬ bothGreen a) body_never_both_green_allOff
    body_never_both_green_endOfCycle w0 n k

/-- C9: in the non-debug program, after the startup and after every prefix of
the effects of any number of loop iterations, each signal has at most one lamp
high, and whenever the green or yellow lamp of one signal is high the other
signal shows exactly red. -/
theorem write_level_conflict_free (w0 : World) (n k : Nat) :
    atMostOneLit (run (run w0 (startup false)) ((loopTrace false n).take k)) signalOne
    ∧ atMostOneLit (run (run w0 (startup false)) ((loopTrace false n).take k)) signalTwo
    ∧ protectedBy (run (run w0 (startup false)) ((loopTrace false n).take k)) signalOne signalTwo
    ∧ protectedBy (run (run w0 (startup false)) ((loopTrace false n).take k)) signalTwo
        signalOne :=
  view_along_loop conflictFree body_conflictFree_allOff body_conflictFree_endOfCycle w0 n k

/-- C3: for a signal with `uint8_t` pins that are pairwise distinct and any
prior environment, `turnRed`, `turnYellow` and `turnGreen` leave exactly the
red, yellow and green lamp high and the other two low; the levels of the three
pins are the same from any other prior environment; and running the same
operation a second time does not change the environment again. -/
theorem turn_exactly_one_lamp (s : Signal_t) (hs : s.inRange)
    (hd : s.red ≠ s.yellow ∧ s.red ≠ s.green ∧ s.yellow ≠ s.green) (w : World) :
    (showsRed (run w (turnRed false s)) s
      ∧ showsYellow (run w (turnYellow false s)) s
      ∧ showsGreen (run w (turnGreen false s)) s)
    ∧ (∀ v : World, ∀ pin ∈ [s.red, s.yellow, s.green],
        readFile (run w (turnRed false s)) (valuePath pin)
            = readFile (run v (turnRed false s)) (valuePath pin)
          ∧ readFile (run w (turnYellow false s)) (valuePath pin)
            = readFile (run v (turnYellow false s)) (valuePath pin)
          ∧ readFile (run w (turnGreen false s)) (valuePath pin)
            = readFile (run v (turnGreen false s)) (valuePath pin))
    ∧ (run (run w (turnRed false s)) (turnRed false s) = run w (turnRed false s)
      ∧ run (run w (turnYellow false s)) (turnYellow false s) = run w (turnYellow false s)
      ∧ run (run w (turnGreen false s)) (turnGreen false s) = run w (turnGreen false s)) := by
  obtain ⟨hry, hrg, hyg⟩ := hd
  have pry := valuePath_ne hry
  have prg := valuePath_ne hrg
  have pyg := valuePath_ne hyg
  have red : ∀ u : World, showsRed (run u (turnRed false s)) s := by
    intro u
    rw [run_turnRed u s hs]
    obtain ⟨a, b, c⟩ := update_three_read u.files _ _ _ "0" "0" "1" pyg pry.symm prg.symm
    exact ⟨c, a, b⟩
  have yellow : ∀ u : World, showsYellow (run u (turnYellow false s)) s := by
    intro u
    rw [run_turnYellow u s hs]
    obtain ⟨a, b, c⟩ := update_three_read u.files _ _ _ "0" "0" "1" prg pry pyg.symm
    exact ⟨a, c, b⟩
  have green : ∀ u : World, showsGreen (run u (turnGreen false s)) s := by
    intro u
    rw [run_turnGreen u s hs]
    obtain ⟨a, b, c⟩ := update_three_read u.files _ _ _ "0" "0" "1" pry prg pyg
    exact ⟨a, b, c⟩
  refine ⟨⟨red w, yellow w, green w⟩, ?_, ?_, ?_, ?_⟩
  · intro v pin hpin
    obtain ⟨r1, r2, r3⟩ := red w
    obtain ⟨r4, r5, r6⟩ := red v
    obtain ⟨y1, y2, y3⟩ := yellow w
    obtain ⟨y4, y5, y6⟩ := yellow v
    obtain ⟨g1, g2, g3⟩ := green w
    obtain ⟨g4, g5, g6⟩ := green v
    unfold isHigh isLow at *
    simp only [List.mem_cons, List.mem_singleton, List.not_mem_nil, or_false] at hpin
    rcases hpin with h | h | h <;> subst h
    · exact ⟨r1.trans r4.symm, y1.trans y4.symm, g1.trans g4.symm⟩
    · exact ⟨r2.trans r5.symm, y2.trans y5.symm, g2.trans g5.symm⟩
    · exact ⟨r3.trans r6.symm, y3.trans y6.symm, g3.trans g6.symm⟩
  · rw [run_turnRed _ s hs, run_turnRed w s hs]
    simp only [update_three_idem]
  · rw [run_turnYellow _ s hs, run_turnYellow w s hs]
    simp only [update_three_idem]
  · rw [run_turnGreen _ s hs, run_turnGreen w s hs]
    simp only [update_three_idem]

/-- Witness for C3: the first configured signal, from the empty world. -/
theorem turn_exactly_one_lamp_witness :
    signalOne.inRange
    ∧ (signalOne.red ≠ signalOne.yellow ∧ signalOne.red ≠ signalOne.green
        ∧ signalOne.yellow ≠ signalOne.green)
    ∧ showsRed (run emptyWorld (turnRed false signalOne)) signalOne
    ∧ showsYellow (run emptyWorld (turnYellow false signalOne)) signalOne
    ∧ showsGreen (run emptyWorld (turnGreen false signalOne)) signalOne :=
  ⟨by decide, by decide,
    (turn_exactly_one_lamp signalOne (by decide) (by decide) emptyWorld).1⟩

/-- C4: for every signal with `uint8_t` pins and any prior environment, after
`turnOffLights` the three pins of the signal are low and after `turnOnLights`
they are high; every other resource, in particular the value resource of every
pin that is not one of the three, keeps its prior contents. -/
theorem turnOff_turnOn_all (s : Signal_t) (hs : s.inRange) (w : World) :
    (isLow (run w (turnOffLights false s)) s.red
      ∧ isLow (run w (turnOffLights false s)) s.yellow
      ∧ isLow (run w (turnOffLights false s)) s.green)
    ∧ (isHigh (run w (turnOnLights false s)) s.red
      ∧ isHigh (run w (turnOnLights false s)) s.yellow
      ∧ isHigh (run w (turnOnLights false s)) s.green)
    ∧ (∀ pin : Nat, pin ≠ s.red → pin ≠ s.yellow → pin ≠ s.green →
        readFile (run w (turnOffLights false s)) (valuePath pin) = readFile w (valuePath pin)
        ∧ readFile (run w (turnOnLights false s)) (valuePath pin) = readFile w (valuePath pin))
    ∧ (∀ path : String, path ≠ valuePath s.red → path ≠ valuePath s.yellow →
        path ≠ valuePath s.green →
        readFile (run w (turnOffLights false s)) path = readFile w path
        ∧ readFile (run w (turnOnLights false s)) path = readFile w path) := by
  have frame : ∀ path : String, path ≠ valuePath s.red → path ≠ valuePath s.yellow →
      path ≠ valuePath s.green →
      readFile (run w (turnOffLights false s)) path = readFile w path
      ∧ readFile (run w (turnOnLights false s)) path = readFile w path := by
    intro path h1 h2 h3
    rw [run_turnOffLights w s hs, run_turnOnLights w s hs]
    simp [readFile, Function.update_apply, h1, h2, h3]
  refine ⟨?_, ?_, ?_, frame⟩
  · rw [run_turnOffLights w s hs]
    simp [isLow, readFile, Function.update_apply]
  · rw [run_turnOnLights w s hs]
    simp [isHigh, readFile, Function.update_apply]
  · intro pin h1 h2 h3
    exact frame (valuePath pin) (valuePath_ne h1) (valuePath_ne h2) (valuePath_ne h3)

/-- Witness for C4: the second configured signal, from the empty world. -/
theorem turnOff_turnOn_all_witness :
    signalTwo.inRange
    ∧ (isLow (run emptyWorld (turnOffLights false signalTwo)) signalTwo.red
      ∧ isLow (run emptyWorld (turnOffLights false signalTwo)) signalTwo.yellow
      ∧ isLow (run emptyWorld (turnOffLights false signalTwo)) signalTwo.green)
    ∧ (isHigh (run emptyWorld (turnOnLights false signalTwo)) signalTwo.red
      ∧ isHigh (run emptyWorld (turnOnLights false signalTwo)) signalTwo.yellow
      ∧ isHigh (run emptyWorld (turnOnLights false signalTwo)) signalTwo.green) :=
  ⟨by decide, (turnOff_turnOn_all signalTwo (by decide) emptyWorld).1,
    (turnOff_turnOn_all signalTwo (by decide) emptyWorld).2.1⟩

theorem startup_effects : startup false
    = [Event.sysOpen "/sys/class/gpio/gpio49/direction" OpenFlag.O_RDWR,
       Event.sysWrite "out", Event.sysClose,
       Event.sysOpen "/sys/class/gpio/gpio14/direction" OpenFlag.O_RDWR,
       Event.sysWrite "out", Event.sysClose,
       Event.sysOpen "/sys/class/gpio/gpio15/direction" OpenFlag.O_RDWR,
       Event.sysWrite "out", Event.sysClose,
       Event.sysOpen "/sys/class/gpio/gpio48/direction" OpenFlag.O_RDWR,
       Event.sysWrite "out", Event.sysClose,
       Event.sysOpen "/sys/class/gpio/gpio31/direction" OpenFlag.O_RDWR,
       Event.sysWrite "out", Event.sysClose,
       Event.sysOpen "/sys/class/gpio/gpio30/direction" OpenFlag.O_RDWR,
       Event.sysWrite "out", Event.sysClose,
       Event.sysOpen "/sys/class/gpio/gpio49/value" OpenFlag.O_WRONLY,
       Event.sysWrite "0", Event.sysClose,
       Event.sysOpen "/sys/class/gpio/gpio14/value" OpenFlag.O_WRONLY,
       Event.sysWrite "0", Event.sysClose,
       Event.sysOpen "/sys/class/gpio/gpio15/value" OpenFlag.O_WRONLY,
       Event.sysWrite "0", Event.sysClose,
       Event.sysOpen "/sys/class/gpio/gpio48/value" OpenFlag.O_WRONLY,
       Event.sysWrite "0", Event.sysClose,
       Event.sysOpen "/sys/class/gpio/gpio31/value" OpenFlag.O_WRONLY,
       Event.sysWrite "0", Event.sysClose,
       Event.sysOpen "/sys/class/gpio/gpio30/value" OpenFlag.O_WRONLY,
       Event.sysWrite "0", Event.sysClose] := by
  decide

/-- C5: the effect trace of the non-debug program is the token `out` written to
the direction resources of pins 49, 14, 15, 48, 31, 30, then `0` written to the
value resources of the same pins in the same order, followed by the effects of
the loop; the loop, for any number of iterations, never opens a direction
resource of these pins, never writes `out`, and never contains the three writes
of an all-off operation in a row. -/
theorem startup_then_loop (sysInfo : utsname) (n : Nat) :
    main false sysInfo n
      = [Event.sysOpen "/sys/class/gpio/gpio49/direction" OpenFlag.O_RDWR,
       Event.sysWrite "out", Event.sysClose,
       Event.sysOpen "/sys/class/gpio/gpio14/direction" OpenFlag.O_RDWR,
       Event.sysWrite "out", Event.sysClose,
       Event.sysOpen "/sys/class/gpio/gpio15/direction" OpenFlag.O_RDWR,
       Event.sysWrite "out", Event.sysClose,
       Event.sysOpen "/sys/class/gpio/gpio48/direction" OpenFlag.O_RDWR,
       Event.sysWrite "out", Event.sysClose,
       Event.sysOpen "/sys/class/gpio/gpio31/direction" OpenFlag.O_RDWR,
       Event.sysWrite "out", Event.sysClose,
       Event.sysOpen "/sys/class/gpio/gpio30/direction" OpenFlag.O_RDWR,
       Event.sysWrite "out", Event.sysClose,
       Event.sysOpen "/sys/class/gpio/gpio49/value" OpenFlag.O_WRONLY,
       Event.sysWrite "0", Event.sysClose,
       Event.sysOpen "/sys/class/gpio/gpio14/value" OpenFlag.O_WRONLY,
       Event.sysWrite "0", Event.sysClose,
       Event.sysOpen "/sys/class/gpio/gpio15/value" OpenFlag.O_WRONLY,
       Event.sysWrite "0", Event.sysClose,
       Event.sysOpen "/sys/class/gpio/gpio48/value" OpenFlag.O_WRONLY,
       Event.sysWrite "0", Event.sysClose,
       Event.sysOpen "/sys/class/gpio/gpio31/value" OpenFlag.O_WRONLY,
       Event.sysWrite "0", Event.sysClose,
       Event.sysOpen "/sys/class/gpio/gpio30/value" OpenFlag.O_WRONLY,
       Event.sysWrite "0", Event.sysClose]
        ++ loopTrace false n
    ∧ (∀ e ∈ loopTrace false n,
        (∀ pin ∈ [RED_1, YELLOW_1, GREEN_1, RED_2, YELLOW_2, GREEN_2],
          e ≠ Event.sysOpen (directionPath pin) OpenFlag.O_RDWR
            ∧ e ≠ Event.sysOpen (directionPath pin) OpenFlag.O_WRONLY)
        ∧ e ≠ Event.sysWrite "out")
    ∧ (∀ s : Signal_t, ¬ (turnOffLights false s) <:+: (loopTrace false n)) := by
  refine ⟨?_, ?_, ?_⟩
  · show ([] ++ startup false) ++ loopTrace false n = _
    rw [List.nil_append, startup_effects]
  · intro e he
    exact loopBody_no_direction e (mem_loopTrace false n e he)
  · intro s
    exact no_allOff_in_loop s n

/-- C6: for every `int` pin number `N` and token `t` that is `"0"` or `"1"`,
non-debug `setValue(N, t)` opens `/sys/class/gpio/gpio<N>/value` write-only,
writes `t` and closes; reading that resource afterwards returns `t`, every
other resource is unchanged; for any value argument the call makes a single
write of exactly one byte, and when the argument is not empty that byte is its
first character. -/
theorem setValue_roundtrip (w : World) (N : Int) (hN : isInt32 N) (t : String)
    (ht : t = "0" ∨ t = "1") :
    valuePath N = "/sys/class/gpio/gpio" ++ toString N ++ "/value"
    ∧ setValue false N t
        = [Event.sysOpen (valuePath N) OpenFlag.O_WRONLY, Event.sysWrite t, Event.sysClose]
    ∧ readFile (run w (setValue false N t)) (valuePath N) = t
    ∧ (∀ path : String, path ≠ valuePath N →
        readFile (run w (setValue false N t)) path = readFile w path)
    ∧ (∀ v : String, ∃ b : Char, writesOf (setValue false N v) = [String.mk [b]])
    ∧ (∀ (v : String) (c : Char) (cs : List Char), v.data = c :: cs →
        writesOf (setValue false N v) = [String.mk [c]]) := by
  have hb : writeBytes t 1 = t := by
    rcases ht with h | h <;> (subst h; decide)
  refine ⟨rfl, ?_, ?_, ?_, ?_, ?_⟩
  · rw [setValue_events N hN, hb]
  · rw [run_setValue w N hN, hb]
    simp [readFile]
  · intro path hp
    rw [run_setValue w N hN]
    simp [readFile, Function.update_apply, hp]
  · intro v
    rw [setValue_events N hN]
    cases hv : v.data with
    | nil => exact ⟨Char.ofNat 0, by simp [writesOf, writeBytes, hv]⟩
    | cons c cs => exact ⟨c, by simp [writesOf, writeBytes, hv]⟩
  · intro v c cs hv
    rw [setValue_events N hN]
    simp [writesOf, writeBytes, hv]

/-- Witness for C6: pin 49 and token `"1"`, from the empty world. -/
theorem setValue_roundtrip_witness :
    isInt32 49 ∧ ("1" = "0" ∨ "1" = "1")
    ∧ setValue false 49 "1"
        = [Event.sysOpen "/sys/class/gpio/gpio49/value" OpenFlag.O_WRONLY, Event.sysWrite "1",
           Event.sysClose]
    ∧ readFile (run emptyWorld (setValue false 49 "1")) "/sys/class/gpio/gpio49/value" = "1" :=
  ⟨by decide, by decide,
    (setValue_roundtrip emptyWorld 49 (by decide) "1" (by decide)).2.1,
    (setValue_roundtrip emptyWorld 49 (by decide) "1" (by decide)).2.2.1⟩

/-- C7: with `DEBUG` enabled every operation consists of console output only:
`setDirection` and `setValue` print one line naming the token and the pin
number, `turnOffLights` and `turnOnLights` one line naming the signal id and
the state of all lamps, `turnRed`, `turnYellow` and `turnGreen` the signal id
followed by one line per lamp; no effect of the whole program is a system call
and any run of it leaves the environment unchanged. -/
theorem debug_touches_no_gpio (sysInfo : utsname) (n : Nat) (w : World) (gpio : Int)
    (tok : String) (s : Signal_t) :
    setDirection true gpio tok
        = [Event.printf ("DEBUG: Set \"" ++ tok ++ "\" to gpio" ++ toString gpio
            ++ " direction\n")]
    ∧ setValue true gpio tok
        = [Event.printf ("DEBUG: Set \"" ++ tok ++ "\" to gpio" ++ toString gpio ++ " value\n")]
    ∧ turnOffLights true s
        = [Event.printf ("DEBUG: Traffic signal " ++ toString s.id ++ ": All lights OFF\n")]
    ∧ turnOnLights true s
        = [Event.printf ("DEBUG: Traffic signal " ++ toString s.id ++ ": All lights ON\n")]
    ∧ turnRed true s
        = [Event.printf ("DEBUG: Traffic signal " ++ toString s.id ++ ":\n"),
           Event.printf "        RED:    on\n",
           Event.printf "        YELLOW: off\n",
           Event.printf "        GREEN:  off\n"]
    ∧ turnYellow true s
        = [Event.printf ("DEBUG: Traffic signal " ++ toString s.id ++ ":\n"),
           Event.printf "        RED:    off\n",
           Event.printf "        YELLOW: on\n",
           Event.printf "        GREEN:  off\n"]
    ∧ turnGreen true s
        = [Event.printf ("DEBUG: Traffic signal " ++ toString s.id ++ ":\n"),
           Event.printf "        RED:    off\n",
           Event.printf "        YELLOW: off\n",
           Event.printf "        GREEN:  on\n"]
    ∧ (∀ e ∈ main true sysInfo n, e.isSyscall = false)
    ∧ run w (main true sysInfo n) = w :=
  ⟨rfl, rfl, rfl, rfl, rfl, rfl, rfl, main_debug_no_syscall sysInfo n,
    run_no_syscall _ w (main_debug_no_syscall sysInfo n)⟩

/-- C8: for every signal with `uint8_t` pins each non-debug phase operation is
exactly three open-write-close triples on the value resources of its pins, in
the order: `turnOffLights` red, yellow, green low; `turnOnLights` red, yellow,
green high; `turnRed` yellow low, green low, red high; `turnYellow` red low,
green low, yellow high; `turnGreen` red low, yellow low, green high. -/
theorem phase_write_order (s : Signal_t) (hs : s.inRange) :
    turnOffLights false s
      = [Event.sysOpen (valuePath s.red) OpenFlag.O_WRONLY, Event.sysWrite "0",
       Event.sysClose,
       Event.sysOpen (valuePath s.yellow) OpenFlag.O_WRONLY, Event.sysWrite "0",
       Event.sysClose,
       Event.sysOpen (valuePath s.green) OpenFlag.O_WRONLY, Event.sysWrite "0",
       Event.sysClose]
    ∧ turnOnLights false s
      = [Event.sysOpen (valuePath s.red) OpenFlag.O_WRONLY, Event.sysWrite "1",
       Event.sysClose,
       Event.sysOpen (valuePath s.yellow) OpenFlag.O_WRONLY, Event.sysWrite "1",
       Event.sysClose,
       Event.sysOpen (valuePath s.green) OpenFlag.O_WRONLY, Event.sysWrite "1",
       Event.sysClose]
    ∧ turnRed false s
      = [Event.sysOpen (valuePath s.yellow) OpenFlag.O_WRONLY, Event.sysWrite "0",
       Event.sysClose,
       Event.sysOpen (valuePath s.green) OpenFlag.O_WRONLY, Event.sysWrite "0",
       Event.sysClose,
       Event.sysOpen (valuePath s.red) OpenFlag.O_WRONLY, Event.sysWrite "1",
       Event.sysClose]
    ∧ turnYellow false s
      = [Event.sysOpen (valuePath s.red) OpenFlag.O_WRONLY, Event.sysWrite "0",
       Event.sysClose,
       Event.sysOpen (valuePath s.green) OpenFlag.O_WRONLY, Event.sysWrite "0",
       Event.sysClose,
       Event.sysOpen (valuePath s.yellow) OpenFlag.O_WRONLY, Event.sysWrite "1",
       Event.sysClose]
    ∧ turnGreen false s
      = [Event.sysOpen (valuePath s.red) OpenFlag.O_WRONLY, Event.sysWrite "0",
       Event.sysClose,
       Event.sysOpen (valuePath s.yellow) OpenFlag.O_WRONLY, Event.sysWrite "0",
       Event.sysClose,
       Event.sysOpen (valuePath s.green) OpenFlag.O_WRONLY, Event.sysWrite "1",
       Event.sysClose] := by
  obtain ⟨_, hr, hy, hg⟩ := hs
  have er := fun v => setValue_events s.red (isInt32_of_lt_256 _ hr) v
  have ey := fun v => setValue_events s.yellow (isInt32_of_lt_256 _ hy) v
  have eg := fun v => setValue_events s.green (isInt32_of_lt_256 _ hg) v
  simp only [turnOffLights, turnOnLights, turnRed, turnYellow, turnGreen, Bool.false_eq_true,
    if_false, er, ey, eg, writeBytes_low, writeBytes_high]
  exact ⟨rfl, rfl, rfl, rfl, rfl⟩

/-- Witness for C8: the first configured signal. -/
theorem phase_write_order_witness :
    signalOne.inRange
    ∧ turnRed false signalOne
      = [Event.sysOpen "/sys/class/gpio/gpio14/value" OpenFlag.O_WRONLY, Event.sysWrite "0",
         Event.sysClose,
         Event.sysOpen "/sys/class/gpio/gpio15/value" OpenFlag.O_WRONLY, Event.sysWrite "0",
         Event.sysClose,
         Event.sysOpen "/sys/class/gpio/gpio49/value" OpenFlag.O_WRONLY, Event.sysWrite "1",
         Event.sysClose] :=
  ⟨by decide, (phase_write_order signalOne (by decide)).2.2.1⟩

/-- C10: for every 32-bit signed `gpio` the formatted direction and value paths
have at most 41 and 37 characters, fewer than the 50 bytes of the buffer, so
`snprintf` stores the complete path and `setDirection` and `setValue` open
exactly `/sys/class/gpio/gpio<gpio>/direction` and
`/sys/class/gpio/gpio<gpio>/value`. -/
theorem path_buffer_never_truncates (gpio : Int) (h : isInt32 gpio) :
    (GPIO_PATH ++ "gpio" ++ fmt_d gpio ++ "/direction").length ≤ 41
    ∧ (GPIO_PATH ++ "gpio" ++ fmt_d gpio ++ "/value").length ≤ 37
    ∧ (GPIO_PATH ++ "gpio" ++ fmt_d gpio ++ "/direction").length < 50
    ∧ (GPIO_PATH ++ "gpio" ++ fmt_d gpio ++ "/value").length < 50
    ∧ snprintf 50 (GPIO_PATH ++ "gpio" ++ fmt_d gpio ++ "/direction")
        = "/sys/class/gpio/gpio" ++ toString gpio ++ "/direction"
    ∧ snprintf 50 (GPIO_PATH ++ "gpio" ++ fmt_d gpio ++ "/value")
        = "/sys/class/gpio/gpio" ++ toString gpio ++ "/value"
    ∧ (∀ d : String, setDirection false gpio d
        = [Event.sysOpen ("/sys/class/gpio/gpio" ++ toString gpio ++ "/direction")
             OpenFlag.O_RDWR,
           Event.sysWrite (writeBytes d 3), Event.sysClose])
    ∧ (∀ v : String, setValue false gpio v
        = [Event.sysOpen ("/sys/class/gpio/gpio" ++ toString gpio ++ "/value")
             OpenFlag.O_WRONLY,
           Event.sysWrite (writeBytes v 1), Event.sysClose]) := by
  have hd := directionPath_length gpio h
  have hv := valuePath_length gpio h
  rw [direction_format_eq, value_format_eq]
  refine ⟨hd, hv, by omega, by omega, ?_, ?_, ?_, ?_⟩
  · exact snprintf_complete 50 _ (by omega)
  · exact snprintf_complete 50 _ (by omega)
  · intro d
    exact setDirection_events gpio h d
  · intro v
    exact setValue_events gpio h v

/-- Witness for C10: the most negative `int`, whose direction path has exactly
41 characters. -/
theorem path_buffer_never_truncates_witness :
    isInt32 (-2147483648)
    ∧ (GPIO_PATH ++ "gpio" ++ fmt_d (-2147483648) ++ "/direction").length ≤ 41
    ∧ (GPIO_PATH ++ "gpio" ++ fmt_d (-2147483648) ++ "/value").length ≤ 37 :=
  ⟨by decide, (path_buffer_never_truncates (-2147483648) (by decide)).1,
    (path_buffer_never_truncates (-2147483648) (by decide)).2.1⟩

end TrafficSignal
